import Mathlib

/-!
Shallow embedding of the TiDB HTAP Insights dashboard services
(`services/tidbSimulator.ts`, `services/tidbApiService.ts`,
`services/geminiService.ts`, shared types from `types.ts`).

Modelling conventions:
* JavaScript numbers are modelled as rationals (`ℚ`); `Math.random()` calls
  are modelled by an explicit stream `rand : ℕ → ℚ` indexed in the order the
  source calls `Math.random()`, with the hypothesis `0 ≤ rand n < 1` where a
  claim needs it.
* Loosely typed JavaScript values (JSON bodies, row records) are modelled by
  the inductive `JVal` with a distinct constructor for `undefined`.
* `async` functions that can throw are modelled as `Except String _`, the
  `String` being the thrown error message; functions that catch internally
  return plain values.
* Wall-clock inputs (`new Date()`, `performance.now()`) are explicit
  parameters.
-/

namespace HTAP

/-- `s.toUpperCase()` in the source; ASCII uppercasing (the SQL keywords the
classifier looks for are all ASCII). Implemented structurally over the
character list so the kernel can evaluate it. -/
def jsUpper (s : String) : String := String.mk (s.data.map Char.toUpper)

/-- Bool-valued prefix test on character lists. -/
def listPrefixOf : List Char → List Char → Bool
  | [], _ => true
  | _ :: _, [] => false
  | a :: as, b :: bs => a == b && listPrefixOf as bs

/-- Bool-valued substring containment on character lists. -/
def listContainsSub : List Char → List Char → Bool
  | [], needle => needle.isEmpty
  | c :: rest, needle => listPrefixOf needle (c :: rest) || listContainsSub rest needle

/-- `hay.includes(needle)` in the source: substring containment. -/
def strIncludes (hay needle : String) : Bool := listContainsSub hay.data needle.data

/-- Loosely typed JavaScript/JSON values, `undefined` included. -/
inductive JVal where
  | undefined
  | null
  | bool (b : Bool)
  | num (q : ℚ)
  | str (s : String)
  | arr (items : List JVal)
  | obj (fields : List (String × JVal))

/-- JavaScript truthiness of a value. -/
def jsTruthy : JVal → Bool
  | .undefined => false
  | .null => false
  | .bool b => b
  | .num q => q ≠ 0
  | .str s => s ≠ ""
  | .arr _ => true
  | .obj _ => true

/-- JavaScript `String(v)` coercion, used by the `Error` constructor for
non-string messages. Stringification of nested arrays is abstracted to the
top level; the claims only exercise string messages. -/
def jsToString : JVal → String
  | .undefined => "undefined"
  | .null => "null"
  | .bool b => if b then "true" else "false"
  | .num q => toString q
  | .str s => s
  | .arr _ => ""
  | .obj _ => "[object Object]"

/-- Property access `v[k]`: `undefined` when the key is absent or the value
is a primitive; a `TypeError` (modelled as `Except.error`) when the value is
`null` or `undefined`. Objects built by this development have unique keys. -/
def getProp : JVal → String → Except String JVal
  | .undefined, k => .error ("Cannot read properties of undefined (reading " ++ k ++ ")")
  | .null, k => .error ("Cannot read properties of null (reading " ++ k ++ ")")
  | .obj fields, k =>
    .ok (match fields.lookup k with
         | some v => v
         | none => .undefined)
  | _, _ => .ok .undefined

/-- The two engines of `QueryResult.engine` in `types.ts`: `TiKV` is the
spec's TransactionalEngine, `TiFlash` the spec's AnalyticalEngine. -/
inductive Engine where
  | TiKV
  | TiFlash
deriving DecidableEq

/-- `QueryResult` from `types.ts`. `rows` keeps the loose `any[]` typing of
the source as a single `JVal` (the live client assigns `data.result.rows`
through without inspecting it). -/
structure QueryResult where
  columns : List JVal
  rows : JVal
  executionTimeMs : ℚ
  engine : Engine
  isMPP : Bool
  sql : String
  error : Option String := none

/-- `TiDBConfig` from `types.ts` (the optional display-only fields are kept
for fidelity). -/
structure TiDBConfig where
  endpoint : String
  publicKey : String
  privateKey : String
  isLive : Bool
  host : Option String := none
  port : Option ℕ := none
  user : Option String := none

/-- `HTAPStatus` from `types.ts`. -/
structure HTAPStatus where
  tikvRegionCount : ℚ
  tiflashReplicaCount : ℚ
  syncLagMs : ℚ
  qpsOltp : ℚ
  qpsOlap : ℚ

/-- `MetricPoint` from `types.ts`. The source stores `time` as the
locale-formatted string of the point's timestamp; locale formatting is
environment-dependent, so the embedding keeps the underlying epoch
milliseconds. -/
structure MetricPoint where
  time : ℤ
  oltp : ℚ
  olap : ℚ

/-- `Math.floor(q)` as a rational. -/
def jsFloor (q : ℚ) : ℚ := (⌊q⌋ : ℚ)

/-- Two-digit zero padding for `toFixed2`. -/
def pad2 (n : ℕ) : String := if n < 10 then "0" ++ toString n else toString n

/-- `q.toFixed(2)` of the source for the non-negative inputs it is applied
to: round half up at two decimals and render with exactly two fraction
digits (binary-float rounding artifacts are out of scope). -/
def toFixed2 (q : ℚ) : String :=
  let n : ℕ := (⌊q * 100 + 1 / 2⌋).toNat
  toString (n / 100) ++ "." ++ pad2 (n % 100)

/-! ## `services/tidbSimulator.ts` -/

/-- The analytical-branch category list of `runQuery`. -/
def simCategories : List String := ["Electronics", "Home", "Apparel", "Books", "Toys"]

/-- The classification line of `runQuery`:
`upperSql.includes('GROUP BY') || upperSql.includes('SUM(') ||
 upperSql.includes('JOIN') || upperSql.includes('COUNT(')`. -/
def simIsAnalytical (sql : String) : Bool :=
  strIncludes (jsUpper sql) "GROUP BY" || strIncludes (jsUpper sql) "SUM(" ||
  strIncludes (jsUpper sql) "JOIN" || strIncludes (jsUpper sql) "COUNT("

/-- The analytical rows of `runQuery`: 5 records; row `i` consumes the
random draws `rand (1 + 3 * i)`, `rand (2 + 3 * i)`, `rand (3 + 3 * i)`
(draw 0 is the artificial latency delay). -/
def simAnalyticalRows (rand : ℕ → ℚ) : List JVal :=
  (List.range 5).map fun i =>
    .obj [("category", .str (simCategories.getD i "")),
          ("total_sales", .num (jsFloor (rand (1 + 3 * i) * 100000))),
          ("avg_price", .str (toFixed2 (rand (2 + 3 * i) * 200))),
          ("order_count", .num (jsFloor (rand (3 + 3 * i) * 500)))]

/-- The transactional rows of `runQuery`: 10 records; row `i` consumes the
random draw `rand (1 + i)`. `nowIso` is `new Date().toISOString()`. -/
def simTransactionalRows (rand : ℕ → ℚ) (nowIso : String) : List JVal :=
  (List.range 10).map fun (i : ℕ) =>
    .obj [("id", .num (1000 + (i : ℚ))),
          ("user_id", .num (500 + (i : ℚ))),
          ("amount", .str (toFixed2 (rand ((1 + i : ℕ)) * 1000))),
          ("status", .str "completed"),
          ("created_at", .str nowIso)]

/-- `runQuery` from `services/tidbSimulator.ts` (the spec's `simulate`).
`rand` is the `Math.random()` stream: draw 0 feeds the artificial
`setTimeout` delay (awaited, not observable in the result), draws
`1 + 3 * i` / `2 + 3 * i` / `3 + 3 * i` (analytical, `i < 5`) or `1 + i`
(transactional, `i < 10`) feed the rows, and draw 16 (analytical) or 11
(transactional) feeds `executionTimeMs`. -/
def runQuery (rand : ℕ → ℚ) (nowIso : String) (sql : String) : QueryResult :=
  let isAnalytical := simIsAnalytical sql
  { columns :=
      if isAnalytical then
        [.str "category", .str "total_sales", .str "avg_price", .str "order_count"]
      else
        [.str "id", .str "user_id", .str "amount", .str "status", .str "created_at"],
    rows :=
      .arr (if isAnalytical then simAnalyticalRows rand
            else simTransactionalRows rand nowIso),
    executionTimeMs :=
      if isAnalytical then 45 + rand 16 * 20 else 2 + rand 11 * 5,
    engine := if isAnalytical then .TiFlash else .TiKV,
    isMPP := isAnalytical,
    sql := sql,
    error := none }

/-- `generateRealtimePerformance` from `services/tidbSimulator.ts`: the loop
runs `i = 10` down to `0`; iteration `j` (so `i = 10 - j`) pushes the point
for `now - i * 1000` and consumes the draws `rand (2 * j)` (oltp) and
`rand (2 * j + 1)` (olap). `now` is `new Date().getTime()` in ms. -/
def generateRealtimePerformance (now : ℤ) (rand : ℕ → ℚ) : List MetricPoint :=
  (List.range 11).map fun (j : ℕ) =>
    { time := now - (10 - (j : ℤ)) * 1000,
      oltp := 800 + rand ((2 * j : ℕ)) * 400,
      olap := 10 + rand ((2 * j + 1 : ℕ)) * 5 }

/-! ## `services/tidbApiService.ts` -/

/-- Outcome of the `fetch` call and the subsequent `response.json()`:
either the fetch itself rejects (network failure), or a response arrives
with an HTTP `ok` flag and a body whose JSON parse either succeeds with a
value or throws with a message. -/
inductive FetchOutcome where
  | throwErr (msg : String)
  | response (ok : Bool) (json : Except String JVal)

/-- `columns.map((c) => c.name)` of `executeLiveQuery`: throws a `TypeError`
when `columns` is not an array or an element is `null`/`undefined`;
otherwise each element contributes its `name` property (possibly
`undefined`). -/
def mapColumnNames : JVal → Except String (List JVal)
  | .arr items => items.mapM (fun c => getProp c "name")
  | .undefined => .error "Cannot read properties of undefined (reading map)"
  | .null => .error "Cannot read properties of null (reading map)"
  | _ => .error "columns.map is not a function"

/-- The failure-path `QueryResult` built by the `catch` block of
`executeLiveQuery`. -/
def liveFailResult (sql msg : String) : QueryResult :=
  { columns := [], rows := .arr [], executionTimeMs := 0,
    engine := .TiKV, isMPP := false, sql := sql, error := some msg }

/-- The classification line of `executeLiveQuery`:
`sql.toUpperCase().includes('GROUP BY') || sql.toUpperCase().includes('JOIN')`
(note: unlike the simulator, no `SUM(` and no `COUNT(`). -/
def liveIsAnalytical (sql : String) : Bool :=
  strIncludes (jsUpper sql) "GROUP BY" || strIncludes (jsUpper sql) "JOIN"

/-- The two success-path mapping lines of `executeLiveQuery`:
`const columns = data.result.columns.map((c) => c.name);
 const rows = data.result.rows;` — each property access can throw. -/
def liveExtract (data : JVal) : Except String (List JVal × JVal) :=
  match getProp data "result" with
  | .error m => .error m
  | .ok result =>
    match getProp result "columns" with
    | .error m => .error m
    | .ok columnsV =>
      match mapColumnNames columnsV with
      | .error m => .error m
      | .ok columns =>
        match getProp result "rows" with
        | .error m => .error m
        | .ok rows => .ok (columns, rows)

/-- The non-2xx branch of `executeLiveQuery`:
`const errData = await response.json();
 throw new Error(errData.message || "Query execution failed");`
(always a throw; `Except.ok` carries the thrown message). -/
def liveHttpErrorMsg (errData : JVal) : Except String String :=
  match getProp errData "message" with
  | .error m => .error m
  | .ok msgV =>
    .ok (if jsTruthy msgV then jsToString msgV else "Query execution failed")

/-- The `try` block of `executeLiveQuery`: `Except.error` is a throw that
the `catch` block will turn into `liveFailResult`. `elapsed` models
`endTime - startTime` (wall-clock ms). -/
def liveTryBody (sql : String) (outcome : FetchOutcome) (elapsed : ℚ) :
    Except String QueryResult :=
  match outcome with
  | .throwErr msg => .error msg
  | .response ok json =>
    if ok then
      match json with
      | .error parseMsg => .error parseMsg
      | .ok data =>
        match liveExtract data with
        | .error m => .error m
        | .ok (columns, rows) =>
          .ok { columns := columns,
                rows := rows,
                executionTimeMs := elapsed,
                engine := if liveIsAnalytical sql then .TiFlash else .TiKV,
                isMPP := liveIsAnalytical sql,
                sql := sql,
                error := none }
    else
      match json with
      | .error parseMsg => .error parseMsg
      | .ok errData =>
        match liveHttpErrorMsg errData with
        | .error m => .error m
        | .ok thrown => .error thrown

/-- `executeLiveQuery` from `services/tidbApiService.ts`. The credentials
check sits before the `try` block, so its `throw` escapes to the caller
(`Except.error`); every failure inside the `try` block is caught and
converted into a returned `QueryResult` with `error` set. -/
def executeLiveQuery (config : TiDBConfig) (sql : String)
    (outcome : FetchOutcome) (elapsed : ℚ) : Except String QueryResult :=
  if config.endpoint = "" ∨ config.publicKey = "" ∨ config.privateKey = "" then
    .error "Missing connection credentials"
  else
    match liveTryBody sql outcome elapsed with
    | .ok r => .ok r
    | .error msg => .ok (liveFailResult sql msg)

/-! ## A model of `JSON.parse`

`services/geminiService.ts` calls `JSON.parse(response.text || '\x7b\x7d')`.
The parser below covers the JSON grammar (objects, arrays, strings with
single-character escapes, numbers with optional fraction and exponent,
booleans, null); `\uXXXX` escapes and the exact engine error messages are
abstracted. Nesting is bounded by a fuel argument; `parseJson` passes the
input length, which bounds any nesting depth. -/

/-- JSON whitespace. -/
def isWsChar (c : Char) : Bool := c = ' ' || c = '\n' || c = '\t' || c = '\r'

/-- Drop leading JSON whitespace. -/
def dropWs : List Char → List Char
  | [] => []
  | c :: cs => if isWsChar c then dropWs cs else c :: cs

/-- Single-character JSON escapes (after a backslash). -/
def unescapeChar (c : Char) : Char :=
  if c = 'n' then '\n'
  else if c = 't' then '\t'
  else if c = 'r' then '\r'
  else if c = 'b' then '\x08'
  else if c = 'f' then '\x0c'
  else c

/-- Parse the body of a JSON string after the opening quote; returns the
decoded characters and the rest of the input after the closing quote. -/
def parseStringBody : List Char → Except String (List Char × List Char)
  | [] => .error "Unterminated string in JSON"
  | '"' :: rest => .ok ([], rest)
  | '\\' :: [] => .error "Unterminated string in JSON"
  | '\\' :: e :: rest =>
    match parseStringBody rest with
    | .ok (acc, r) => .ok (unescapeChar e :: acc, r)
    | .error m => .error m
  | c :: rest =>
    match parseStringBody rest with
    | .ok (acc, r) => .ok (c :: acc, r)
    | .error m => .error m

/-- Split off a maximal run of decimal digits. -/
def spanDigits : List Char → List Char × List Char
  | [] => ([], [])
  | c :: cs =>
    if c.isDigit then
      let (ds, rest) := spanDigits cs
      (c :: ds, rest)
    else ([], c :: cs)

/-- Decimal digits to a natural number. -/
def digitsToNat (ds : List Char) : ℕ :=
  ds.foldl (fun acc c => acc * 10 + (c.toNat - 48)) 0

/-- `10 ^ n` as a rational, defined structurally so the kernel evaluates it. -/
def pow10 : ℕ → ℚ
  | 0 => 1
  | n + 1 => 10 * pow10 n

/-- Parse a JSON number starting at a digit or a minus sign. -/
def parseNumber (input : List Char) : Except String (ℚ × List Char) :=
  let (neg, afterSign) :=
    match input with
    | '-' :: rest => (true, rest)
    | _ => (false, input)
  match spanDigits afterSign with
  | ([], _) => .error "Unexpected token in JSON number"
  | (intDs, afterInt) =>
    let intPart : ℚ := (digitsToNat intDs : ℚ)
    let (mantissa, afterFrac) :=
      match afterInt with
      | '.' :: rest =>
        let (fracDs, r) := spanDigits rest
        (intPart + (digitsToNat fracDs : ℚ) / pow10 fracDs.length, r)
      | _ => (intPart, afterInt)
    let (value, rest) :=
      match afterFrac with
      | 'e' :: rest => parseExponent mantissa rest
      | 'E' :: rest => parseExponent mantissa rest
      | _ => (mantissa, afterFrac)
    .ok (if neg then -value else value, rest)
where
  /-- Apply an optionally signed decimal exponent to the mantissa. -/
  parseExponent (m : ℚ) (input : List Char) : ℚ × List Char :=
    let (eneg, afterSign) :=
      match input with
      | '-' :: rest => (true, rest)
      | '+' :: rest => (false, rest)
      | _ => (false, input)
    let (eDs, rest) := spanDigits afterSign
    let scale := pow10 (digitsToNat eDs)
    (if eneg then m / scale else m * scale, rest)

mutual

/-- Parse one JSON value; `fuel` bounds the nesting depth. -/
def parseVal : ℕ → List Char → Except String (JVal × List Char)
  | 0, _ => .error "JSON nesting too deep"
  | fuel + 1, input =>
    match dropWs input with
    | [] => .error "Unexpected end of JSON input"
    | '"' :: rest =>
      match parseStringBody rest with
      | .ok (cs, r) => .ok (.str (String.mk cs), r)
      | .error m => .error m
    | '\x7b' :: rest =>
      match dropWs rest with
      | '\x7d' :: r => .ok (.obj [], r)
      | other => parseObjFields fuel other
    | '[' :: rest =>
      match dropWs rest with
      | ']' :: r => .ok (.arr [], r)
      | other => parseArrItems fuel other
    | 't' :: 'r' :: 'u' :: 'e' :: rest => .ok (.bool true, rest)
    | 'f' :: 'a' :: 'l' :: 's' :: 'e' :: rest => .ok (.bool false, rest)
    | 'n' :: 'u' :: 'l' :: 'l' :: rest => .ok (.null, rest)
    | other =>
      match parseNumber other with
      | .ok (q, rest) => .ok (.num q, rest)
      | .error m => .error m

/-- Parse the fields of a JSON object after the opening brace (non-empty
case). -/
def parseObjFields : ℕ → List Char → Except String (JVal × List Char)
  | 0, _ => .error "JSON nesting too deep"
  | fuel + 1, input =>
    match dropWs input with
    | '"' :: rest =>
      match parseStringBody rest with
      | .error m => .error m
      | .ok (key, afterKey) =>
        match dropWs afterKey with
        | ':' :: afterColon =>
          match parseVal fuel afterColon with
          | .error m => .error m
          | .ok (v, afterVal) =>
            match dropWs afterVal with
            | ',' :: more =>
              match parseObjFields fuel more with
              | .ok (.obj fields, r) => .ok (.obj ((String.mk key, v) :: fields), r)
              | .ok _ => .error "Malformed JSON object"
              | .error m => .error m
            | '\x7d' :: r => .ok (.obj [(String.mk key, v)], r)
            | _ => .error "Expected comma or closing brace in JSON object"
        | _ => .error "Expected colon in JSON object"
    | _ => .error "Expected string key in JSON object"

/-- Parse the items of a JSON array after the opening bracket (non-empty
case). -/
def parseArrItems : ℕ → List Char → Except String (JVal × List Char)
  | 0, _ => .error "JSON nesting too deep"
  | fuel + 1, input =>
    match parseVal fuel input with
    | .error m => .error m
    | .ok (v, afterVal) =>
      match dropWs afterVal with
      | ',' :: more =>
        match parseArrItems fuel more with
        | .ok (.arr items, r) => .ok (.arr (v :: items), r)
        | .ok _ => .error "Malformed JSON array"
        | .error m => .error m
      | ']' :: r => .ok (.arr (v :: []), r)
      | _ => .error "Expected comma or closing bracket in JSON array"

end

/-- `JSON.parse(s)`: parse one value and require only whitespace after it. -/
def parseJson (s : String) : Except String JVal :=
  match parseVal (s.length + 1) s.data with
  | .error m => .error m
  | .ok (v, rest) =>
    match dropWs rest with
    | [] => .ok v
    | _ => .error "Unexpected non-whitespace character after JSON data"

/-! ## `services/geminiService.ts` -/

/-- Outcome of `ai.models.generateContent`: the call may throw, or return a
response whose `text` property may be a string or `undefined`. -/
inductive GenOutcome where
  | throwErr (msg : String)
  | success (text : Option String)

/-- The prompt template literal of `getAIInsights`, with the five gauges
interpolated. -/
def buildPrompt (status : HTAPStatus) : String :=
  "Act as a senior TiDB Database Administrator. Analyze the following HTAP cluster metrics:\n" ++
  "- OLTP QPS: " ++ toString status.qpsOltp ++ "\n" ++
  "- OLAP QPS: " ++ toString status.qpsOlap ++ "\n" ++
  "- TiFlash Sync Lag: " ++ toString status.syncLagMs ++ "ms\n" ++
  "- TiKV Regions: " ++ toString status.tikvRegionCount ++ "\n" ++
  "- TiFlash Replicas: " ++ toString status.tiflashReplicaCount ++ "\n" ++
  "Provide a brief architectural insight about this hybrid workload. " ++
  "Identify if TiFlash is keeping up with TiKV and if the analytical queries are impacting transactional throughput."

/-- The static fallback insight returned by the `catch` block of
`getAIInsights`, in source field order. -/
def fallbackInsight : JVal :=
  .obj [("title", .str "Monitoring Active"),
        ("content", .str "System metrics are within normal operating parameters. HTAP isolation is maintained."),
        ("recommendation", .str "Continue standard monitoring."),
        ("severity", .str "low")]

/-- `text || dflt` for the possibly-`undefined` string `response.text`. -/
def jsOrElse (text : Option String) (dflt : String) : String :=
  match text with
  | none => dflt
  | some t => if t = "" then dflt else t

/-- `getAIInsights` from `services/geminiService.ts`. The success path is
`JSON.parse(response.text || getBraces)` followed by `return result as
AIInsight` — a TypeScript type assertion that performs no runtime
validation, so whatever JSON value parses is returned as-is. Every throw
(transport failure, JSON parse failure) is caught and replaced by the
static `fallbackInsight`. -/
def getAIInsights (transport : String → GenOutcome) (status : HTAPStatus) : JVal :=
  match transport (buildPrompt status) with
  | .throwErr _ => fallbackInsight
  | .success text =>
    match parseJson (jsOrElse text "\x7b\x7d") with
    | .error _ => fallbackInsight
    | .ok result => result

/-! ## Helper lemmas -/

theorem runQuery_engine_eq (rand : ℕ → ℚ) (nowIso sql : String) :
    (runQuery rand nowIso sql).engine =
      if simIsAnalytical sql then Engine.TiFlash else Engine.TiKV := rfl

theorem runQuery_isMPP_eq (rand : ℕ → ℚ) (nowIso sql : String) :
    (runQuery rand nowIso sql).isMPP = simIsAnalytical sql := rfl

theorem runQuery_time_eq (rand : ℕ → ℚ) (nowIso sql : String) :
    (runQuery rand nowIso sql).executionTimeMs =
      if simIsAnalytical sql then 45 + rand 16 * 20 else 2 + rand 11 * 5 := rfl

theorem simIsAnalytical_iff (sql : String) :
    simIsAnalytical sql = true ↔
      (strIncludes (jsUpper sql) "GROUP BY" = true ∨
       strIncludes (jsUpper sql) "JOIN" = true ∨
       strIncludes (jsUpper sql) "SUM(" = true ∨
       strIncludes (jsUpper sql) "COUNT(" = true) := by
  simp only [simIsAnalytical, Bool.or_eq_true]
  tauto

/-- Shape of every `QueryResult` that leaves the `try` block of
`executeLiveQuery` without being caught. -/
theorem liveTryBody_ok (sql : String) (outcome : FetchOutcome) (elapsed : ℚ)
    (r : QueryResult) (h : liveTryBody sql outcome elapsed = .ok r) :
    r.engine = (if liveIsAnalytical sql then Engine.TiFlash else Engine.TiKV) ∧
    r.isMPP = liveIsAnalytical sql ∧
    r.error = none ∧
    r.executionTimeMs = elapsed ∧
    r.sql = sql := by
  unfold liveTryBody at h
  repeat' split at h
  all_goals try exact Except.noConfusion h
  all_goals injection h with h
  all_goals subst h
  all_goals exact ⟨by simp [*], rfl, rfl, rfl, rfl⟩

/-- Every result `executeLiveQuery` actually returns (as opposed to throws)
is either an uncaught `try`-block success or a `liveFailResult`. -/
theorem executeLiveQuery_ok_cases (config : TiDBConfig) (sql : String)
    (outcome : FetchOutcome) (elapsed : ℚ) (r : QueryResult)
    (h : executeLiveQuery config sql outcome elapsed = .ok r) :
    liveTryBody sql outcome elapsed = .ok r ∨
    ∃ msg, liveTryBody sql outcome elapsed = .error msg ∧ r = liveFailResult sql msg := by
  unfold executeLiveQuery at h
  split at h
  · exact absurd h (by simp)
  · split at h
    · injection h with h
      subst h
      left
      assumption
    · injection h with h
      exact Or.inr ⟨_, by assumption, h.symm⟩

/-! ## C4 -/

/-- C4: for every SQL string whose uppercased form contains `GROUP BY`,
`JOIN`, `SUM(` or `COUNT(`, the Simulator classifies it as the analytical
engine (TiFlash); for every other string it classifies it as the
transactional engine (TiKV). The check is pure case-insensitive substring
containment (containment in the uppercased text), with no treatment of
string literals or comments. -/
theorem simulator_classifies_by_substrings (rand : ℕ → ℚ) (nowIso sql : String) :
    ((runQuery rand nowIso sql).engine = Engine.TiFlash ↔
      (strIncludes (jsUpper sql) "GROUP BY" = true ∨
       strIncludes (jsUpper sql) "JOIN" = true ∨
       strIncludes (jsUpper sql) "SUM(" = true ∨
       strIncludes (jsUpper sql) "COUNT(" = true)) ∧
    ((runQuery rand nowIso sql).engine = Engine.TiKV ↔
      ¬(strIncludes (jsUpper sql) "GROUP BY" = true ∨
        strIncludes (jsUpper sql) "JOIN" = true ∨
        strIncludes (jsUpper sql) "SUM(" = true ∨
        strIncludes (jsUpper sql) "COUNT(" = true)) := by
  rw [runQuery_engine_eq, ← simIsAnalytical_iff]
  cases h : simIsAnalytical sql <;> simp [h]

/-! ## C5 -/

/-- C5: for every SQL string, `runQuery` (the spec's `simulate`) returns a
result with no error; when the query classifies as analytical it has
exactly 5 rows, columns exactly [category, total_sales, avg_price,
order_count], engine TiFlash and isMPP true; when it classifies as
transactional it has exactly 10 rows, columns exactly [id, user_id, amount,
status, created_at] and isMPP false. -/
theorem simulate_result_shape (rand : ℕ → ℚ) (nowIso sql : String) :
    (runQuery rand nowIso sql).error = none ∧
    (simIsAnalytical sql = true →
      (runQuery rand nowIso sql).engine = Engine.TiFlash ∧
      (runQuery rand nowIso sql).isMPP = true ∧
      (runQuery rand nowIso sql).columns =
        [.str "category", .str "total_sales", .str "avg_price", .str "order_count"] ∧
      (runQuery rand nowIso sql).rows = .arr (simAnalyticalRows rand) ∧
      (simAnalyticalRows rand).length = 5) ∧
    (simIsAnalytical sql = false →
      (runQuery rand nowIso sql).isMPP = false ∧
      (runQuery rand nowIso sql).columns =
        [.str "id", .str "user_id", .str "amount", .str "status", .str "created_at"] ∧
      (runQuery rand nowIso sql).rows = .arr (simTransactionalRows rand nowIso) ∧
      (simTransactionalRows rand nowIso).length = 10) := by
  refine ⟨rfl, fun h => ?_, fun h => ?_⟩ <;>
    simp [runQuery, h, simAnalyticalRows, simTransactionalRows]

/-- Witness for C5: the spec's own end-to-end scenarios, with the random
stream constantly 0. -/
theorem simulate_result_shape_witness :
    (runQuery (fun _ => 0) "2024-01-01T00:00:00.000Z"
        "SELECT category, SUM(amount) FROM orders GROUP BY category").columns =
      [.str "category", .str "total_sales", .str "avg_price", .str "order_count"] ∧
    (simAnalyticalRows (fun _ => 0)).length = 5 ∧
    (runQuery (fun _ => 0) "2024-01-01T00:00:00.000Z"
        "SELECT * FROM orders LIMIT 10").columns =
      [.str "id", .str "user_id", .str "amount", .str "status", .str "created_at"] ∧
    (simTransactionalRows (fun _ => 0) "2024-01-01T00:00:00.000Z").length = 10 := by
  refine ⟨?_, ?_, ?_, ?_⟩
  · exact ((simulate_result_shape (fun _ => 0) "2024-01-01T00:00:00.000Z"
      "SELECT category, SUM(amount) FROM orders GROUP BY category").2.1 (by decide)).2.2.1
  · exact ((simulate_result_shape (fun _ => 0) "2024-01-01T00:00:00.000Z"
      "SELECT category, SUM(amount) FROM orders GROUP BY category").2.1 (by decide)).2.2.2.2
  · exact ((simulate_result_shape (fun _ => 0) "2024-01-01T00:00:00.000Z"
      "SELECT * FROM orders LIMIT 10").2.2 (by decide)).2.1
  · exact ((simulate_result_shape (fun _ => 0) "2024-01-01T00:00:00.000Z"
      "SELECT * FROM orders LIMIT 10").2.2 (by decide)).2.2.2

/-! ## C7 -/

/-- C7: every QueryResult produced by the Simulator or the Live Query
Client satisfies: if `error` is set then `columns` and `rows` are empty and
`executionTimeMs` is 0 (the Simulator never sets `error`; the Live Query
Client sets it only in the `catch` block, which empties the other fields). -/
theorem error_implies_empty_result (rand : ℕ → ℚ) (nowIso : String)
    (config : TiDBConfig) (sql : String) (outcome : FetchOutcome) (elapsed : ℚ)
    (r : QueryResult) (e : String) :
    (runQuery rand nowIso sql).error = none ∧
    (executeLiveQuery config sql outcome elapsed = .ok r → r.error = some e →
      r.columns = [] ∧ r.rows = .arr [] ∧ r.executionTimeMs = 0) := by
  refine ⟨rfl, fun hok herr => ?_⟩
  rcases executeLiveQuery_ok_cases config sql outcome elapsed r hok with h | ⟨msg, _, hr⟩
  · have hnone := (liveTryBody_ok sql outcome elapsed r h).2.2.1
    rw [hnone] at herr
    exact Option.noConfusion herr
  · subst hr
    exact ⟨rfl, rfl, rfl⟩

/-- Witness for C7: a concrete failing live call (network throw) whose
returned result has its `error` set and the mandated empty fields. -/
theorem error_implies_empty_result_witness :
    (liveFailResult "SELECT 1" "network unreachable").columns = [] ∧
    (liveFailResult "SELECT 1" "network unreachable").rows = .arr [] ∧
    (liveFailResult "SELECT 1" "network unreachable").executionTimeMs = 0 :=
  (error_implies_empty_result (fun _ => 0) "2024-01-01T00:00:00.000Z"
    ⟨"https://gateway.example", "pk", "sk", true, none, none, none⟩ "SELECT 1"
    (.throwErr "network unreachable") 5
    (liveFailResult "SELECT 1" "network unreachable") "network unreachable").2 rfl rfl

/-! ## C8 -/

/-- C8: every QueryResult produced by the Simulator or the Live Query
Client satisfies `isMPP = (engine == AnalyticalEngine)`: `isMPP` is true
exactly when `engine` is TiFlash and false exactly when it is TiKV. -/
theorem isMPP_iff_analytical_engine (rand : ℕ → ℚ) (nowIso : String)
    (config : TiDBConfig) (sql : String) (outcome : FetchOutcome) (elapsed : ℚ)
    (r : QueryResult) :
    ((runQuery rand nowIso sql).isMPP = true ↔
      (runQuery rand nowIso sql).engine = Engine.TiFlash) ∧
    ((runQuery rand nowIso sql).isMPP = false ↔
      (runQuery rand nowIso sql).engine = Engine.TiKV) ∧
    (executeLiveQuery config sql outcome elapsed = .ok r →
      ((r.isMPP = true ↔ r.engine = Engine.TiFlash) ∧
       (r.isMPP = false ↔ r.engine = Engine.TiKV))) := by
  refine ⟨?_, ?_, fun hok => ?_⟩
  · rw [runQuery_isMPP_eq, runQuery_engine_eq]
    cases simIsAnalytical sql <;> simp
  · rw [runQuery_isMPP_eq, runQuery_engine_eq]
    cases simIsAnalytical sql <;> simp
  · rcases executeLiveQuery_ok_cases config sql outcome elapsed r hok with h | ⟨msg, _, hr⟩
    · obtain ⟨he, hm, -, -, -⟩ := liveTryBody_ok sql outcome elapsed r h
      rw [he, hm]
      cases liveIsAnalytical sql <;> simp
    · subst hr
      simp [liveFailResult]

/-- Witness for C8: the live conjunct applied to a concrete failing call. -/
theorem isMPP_iff_analytical_engine_witness :
    ((liveFailResult "SELECT 1" "boom").isMPP = true ↔
      (liveFailResult "SELECT 1" "boom").engine = Engine.TiFlash) ∧
    ((liveFailResult "SELECT 1" "boom").isMPP = false ↔
      (liveFailResult "SELECT 1" "boom").engine = Engine.TiKV) :=
  (isMPP_iff_analytical_engine (fun _ => 0) "2024-01-01T00:00:00.000Z"
    ⟨"https://gateway.example", "pk", "sk", true, none, none, none⟩ "SELECT 1"
    (.throwErr "boom") 5 (liveFailResult "SELECT 1" "boom")).2.2 rfl

/-! ## C9 -/

/-- C9: with every `Math.random()` draw in `[0, 1)`, the simulated
`executionTimeMs` lies in `[45, 65)` for an analytical query and in
`[2, 7)` for a transactional one; the intervals are disjoint, so the
reported time alone determines the engine of a simulated result. -/
theorem execution_time_ranges (rand : ℕ → ℚ) (hr : ∀ n, 0 ≤ rand n ∧ rand n < 1)
    (nowIso sql : String) :
    (simIsAnalytical sql = true →
      45 ≤ (runQuery rand nowIso sql).executionTimeMs ∧
      (runQuery rand nowIso sql).executionTimeMs < 65) ∧
    (simIsAnalytical sql = false →
      2 ≤ (runQuery rand nowIso sql).executionTimeMs ∧
      (runQuery rand nowIso sql).executionTimeMs < 7) ∧
    (∀ (rand2 : ℕ → ℚ) (nowIso2 sql2 : String), (∀ n, 0 ≤ rand2 n ∧ rand2 n < 1) →
      (runQuery rand2 nowIso2 sql2).executionTimeMs =
        (runQuery rand nowIso sql).executionTimeMs →
      (runQuery rand2 nowIso2 sql2).engine = (runQuery rand nowIso sql).engine) := by
  have key : ∀ (f : ℕ → ℚ), (∀ n, 0 ≤ f n ∧ f n < 1) → ∀ (ni s : String),
      (simIsAnalytical s = true →
        45 ≤ (runQuery f ni s).executionTimeMs ∧ (runQuery f ni s).executionTimeMs < 65) ∧
      (simIsAnalytical s = false →
        2 ≤ (runQuery f ni s).executionTimeMs ∧ (runQuery f ni s).executionTimeMs < 7) := by
    intro f hf ni s
    constructor <;> intro h <;> simp only [runQuery_time_eq, h, Bool.false_eq_true,
      if_true, if_false]
    · obtain ⟨h0, h1⟩ := hf 16
      constructor <;> nlinarith
    · obtain ⟨h0, h1⟩ := hf 11
      constructor <;> nlinarith
  refine ⟨(key rand hr nowIso sql).1, (key rand hr nowIso sql).2, ?_⟩
  intro rand2 nowIso2 sql2 hr2 heq
  rw [runQuery_engine_eq, runQuery_engine_eq]
  cases h1 : simIsAnalytical sql2 <;> cases h2 : simIsAnalytical sql <;> simp
  · -- sql2 transactional, sql analytical: times cannot be equal
    obtain ⟨a0, a1⟩ := (key rand hr nowIso sql).1 h2
    obtain ⟨b0, b1⟩ := (key rand2 hr2 nowIso2 sql2).2 h1
    exact absurd heq (by intro hc; rw [hc] at b1; linarith)
  · -- sql2 analytical, sql transactional: times cannot be equal
    obtain ⟨a0, a1⟩ := (key rand hr nowIso sql).2 h2
    obtain ⟨b0, b1⟩ := (key rand2 hr2 nowIso2 sql2).1 h1
    exact absurd heq (by intro hc; rw [hc] at b1; linarith)

/-- Witness for C9: a concrete analytical query with all draws `1/2`
(execution time 55) and a concrete transactional one (execution time 4.5). -/
theorem execution_time_ranges_witness :
    (45 ≤ (runQuery (fun _ => 1/2) "2024-01-01T00:00:00.000Z"
        "SELECT A FROM T JOIN U").executionTimeMs ∧
      (runQuery (fun _ => 1/2) "2024-01-01T00:00:00.000Z"
        "SELECT A FROM T JOIN U").executionTimeMs < 65) ∧
    (2 ≤ (runQuery (fun _ => 1/2) "2024-01-01T00:00:00.000Z"
        "SELECT 1").executionTimeMs ∧
      (runQuery (fun _ => 1/2) "2024-01-01T00:00:00.000Z"
        "SELECT 1").executionTimeMs < 7) :=
  ⟨(execution_time_ranges (fun _ => 1/2) (fun _ => by norm_num)
      "2024-01-01T00:00:00.000Z" "SELECT A FROM T JOIN U").1 (by decide),
   (execution_time_ranges (fun _ => 1/2) (fun _ => by norm_num)
      "2024-01-01T00:00:00.000Z" "SELECT 1").2.1 (by decide)⟩

/-! ## C10 -/

/-- C10: every call to `generateRealtimePerformance` returns exactly 11
metric points, ordered chronologically from 10 seconds before `now` to
`now` at one-second spacing, with each `oltp` in `[800, 1200)` and each
`olap` in `[10, 15)` (given every `Math.random()` draw lies in `[0, 1)`). -/
theorem realtime_metrics_shape (now : ℤ) (rand : ℕ → ℚ)
    (hr : ∀ n, 0 ≤ rand n ∧ rand n < 1) :
    (generateRealtimePerformance now rand).length = 11 ∧
    (∀ j, j < 11 →
      ((generateRealtimePerformance now rand).getD j ⟨0, 0, 0⟩).time =
          now - (10 - (j : ℤ)) * 1000 ∧
      800 ≤ ((generateRealtimePerformance now rand).getD j ⟨0, 0, 0⟩).oltp ∧
      ((generateRealtimePerformance now rand).getD j ⟨0, 0, 0⟩).oltp < 1200 ∧
      10 ≤ ((generateRealtimePerformance now rand).getD j ⟨0, 0, 0⟩).olap ∧
      ((generateRealtimePerformance now rand).getD j ⟨0, 0, 0⟩).olap < 15) ∧
    (∀ i j, i < j → j < 11 →
      ((generateRealtimePerformance now rand).getD i ⟨0, 0, 0⟩).time <
        ((generateRealtimePerformance now rand).getD j ⟨0, 0, 0⟩).time) := by
  have hget : ∀ j, j < 11 →
      (generateRealtimePerformance now rand).getD j ⟨0, 0, 0⟩ =
        ⟨now - (10 - (j : ℤ)) * 1000,
         800 + rand (2 * j) * 400, 10 + rand (2 * j + 1) * 5⟩ := by
    intro j hj
    simp [generateRealtimePerformance, List.getD, hj]
  refine ⟨by simp [generateRealtimePerformance], fun j hj => ?_, fun i j hij hj => ?_⟩
  · rw [hget j hj]
    obtain ⟨a0, a1⟩ := hr (2 * j)
    obtain ⟨b0, b1⟩ := hr (2 * j + 1)
    refine ⟨rfl, ?_, ?_, ?_, ?_⟩ <;> dsimp only <;> nlinarith
  · rw [hget i (hij.trans hj), hget j hj]
    have hc : (i : ℤ) < (j : ℤ) := by exact_mod_cast hij
    dsimp only
    linarith

/-- Witness for C10: `now = 0` and all draws `1/2`. -/
theorem realtime_metrics_shape_witness :
    (generateRealtimePerformance 0 (fun _ => 1/2)).length = 11 ∧
    ((generateRealtimePerformance 0 (fun _ => 1/2)).getD 0 ⟨0, 0, 0⟩).time <
      ((generateRealtimePerformance 0 (fun _ => 1/2)).getD 10 ⟨0, 0, 0⟩).time :=
  ⟨(realtime_metrics_shape 0 (fun _ => 1/2) (fun _ => by norm_num)).1,
   (realtime_metrics_shape 0 (fun _ => 1/2) (fun _ => by norm_num)).2.2 0 10
     (by norm_num) (by norm_num)⟩

/-! ## C1 -/

theorem liveIsAnalytical_iff (sql : String) :
    liveIsAnalytical sql = true ↔
      (strIncludes (jsUpper sql) "GROUP BY" = true ∨
       strIncludes (jsUpper sql) "JOIN" = true) := by
  simp [liveIsAnalytical]

/-- Counterexample for C1: on `SELECT SUM(X) FROM T` the Live Query Client's
success path assigns TiKV — its rule checks only `GROUP BY` and `JOIN` —
although the uppercased SQL contains `SUM(` and the Simulator classifies
the very same query as TiFlash. -/
theorem live_classification_counterexample :
    executeLiveQuery ⟨"https://gateway.example", "pk", "sk", true, none, none, none⟩
        "SELECT SUM(X) FROM T"
        (.response true (.ok (.obj [("result",
          .obj [("columns", .arr [.obj [("name", .str "s")]]),
                ("rows", .arr [])])])))
        7 =
      .ok { columns := [.str "s"], rows := .arr [], executionTimeMs := 7,
            engine := Engine.TiKV, isMPP := false,
            sql := "SELECT SUM(X) FROM T", error := none } ∧
    strIncludes (jsUpper "SELECT SUM(X) FROM T") "SUM(" = true ∧
    (runQuery (fun _ => 0) "2024-01-01T00:00:00.000Z"
        "SELECT SUM(X) FROM T").engine = Engine.TiFlash ∧
    Engine.TiKV ≠ Engine.TiFlash := by
  refine ⟨rfl, by decide, rfl, by decide⟩

/-- C1 (amended): the Live Query Client's success path (a returned result
with no error) assigns TiFlash iff the uppercased SQL contains `GROUP BY`
or `JOIN` — a strictly smaller keyword set than the Simulator's §4.1 rule —
and TiKV otherwise; its classification therefore does not agree with the
Simulator's on every input. -/
theorem live_classification_amended (config : TiDBConfig) (sql : String)
    (outcome : FetchOutcome) (elapsed : ℚ) (r : QueryResult)
    (hok : executeLiveQuery config sql outcome elapsed = .ok r)
    (herr : r.error = none) :
    (r.engine = Engine.TiFlash ↔
      (strIncludes (jsUpper sql) "GROUP BY" = true ∨
       strIncludes (jsUpper sql) "JOIN" = true)) ∧
    (r.engine = Engine.TiKV ↔
      ¬(strIncludes (jsUpper sql) "GROUP BY" = true ∨
        strIncludes (jsUpper sql) "JOIN" = true)) := by
  rcases executeLiveQuery_ok_cases config sql outcome elapsed r hok with h | ⟨msg, -, hr⟩
  · obtain ⟨he, -, -, -, -⟩ := liveTryBody_ok sql outcome elapsed r h
    rw [he, ← liveIsAnalytical_iff]
    cases hb : liveIsAnalytical sql <;> simp [hb]
  · subst hr
    exact absurd herr (by simp [liveFailResult])

/-- Witness for C1 (amended): a concrete successful live call with a JOIN
query comes back classified TiFlash. -/
theorem live_classification_amended_witness :
    ({ columns := [.str "s"], rows := JVal.arr [], executionTimeMs := 7,
       engine := Engine.TiFlash, isMPP := true,
       sql := "SELECT A FROM T JOIN U", error := none } : QueryResult).engine
        = Engine.TiFlash ↔
      (strIncludes (jsUpper "SELECT A FROM T JOIN U") "GROUP BY" = true ∨
       strIncludes (jsUpper "SELECT A FROM T JOIN U") "JOIN" = true) :=
  (live_classification_amended
    ⟨"https://gateway.example", "pk", "sk", true, none, none, none⟩
    "SELECT A FROM T JOIN U"
    (.response true (.ok (.obj [("result",
      .obj [("columns", .arr [.obj [("name", .str "s")]]),
            ("rows", .arr [])])])))
    7
    { columns := [.str "s"], rows := JVal.arr [], executionTimeMs := 7,
      engine := Engine.TiFlash, isMPP := true,
      sql := "SELECT A FROM T JOIN U", error := none }
    rfl rfl).1

/-! ## C2 -/

/-- Counterexample for C2: with an empty `publicKey` (endpoint and
privateKey non-empty) the call does not return a QueryResult at all — the
`throw` sits before the `try`/`catch`, so the async call rejects with
"Missing connection credentials" instead of returning a value with `error`
populated. -/
theorem live_missing_credentials_counterexample :
    executeLiveQuery ⟨"https://gateway.example", "", "sk", true, none, none, none⟩
        "SELECT 1" (.throwErr "transport must not be called") 0 =
      .error "Missing connection credentials" := rfl

/-- C2 (amended): for every config in which endpoint, publicKey or
privateKey is the empty string, `executeLiveQuery` throws (the promise
rejects with) "Missing connection credentials" before any HTTP request —
the transport outcome is universally quantified, so the thrown error is
independent of it — and no QueryResult is returned. -/
theorem live_missing_credentials_amended (config : TiDBConfig) (sql : String)
    (outcome : FetchOutcome) (elapsed : ℚ)
    (h : config.endpoint = "" ∨ config.publicKey = "" ∨ config.privateKey = "") :
    executeLiveQuery config sql outcome elapsed =
      .error "Missing connection credentials" := by
  unfold executeLiveQuery
  rw [if_pos h]

/-- Witness for C2 (amended): concrete empty publicKey. -/
theorem live_missing_credentials_amended_witness :
    executeLiveQuery ⟨"https://gateway.example", "", "sk", true, none, none, none⟩
        "SELECT 1" (.throwErr "network down") 0 =
      .error "Missing connection credentials" :=
  live_missing_credentials_amended
    ⟨"https://gateway.example", "", "sk", true, none, none, none⟩
    "SELECT 1" (.throwErr "network down") 0 (Or.inr (Or.inl rfl))

/-! ## C3 -/

/-- Counterexample for C3: a syntactically valid JSON response missing all
four Insight fields (`\x7b\x7d`) is NOT replaced by the fallback — the
source casts the parsed object (`result as AIInsight`) without any runtime
field validation, so the empty object is returned as-is. -/
theorem insight_missing_fields_counterexample :
    getAIInsights (fun _ => .success (some "\x7b\x7d")) ⟨1450, 2, 12, 1250, 15⟩ =
      JVal.obj [] ∧
    JVal.obj [] ≠ fallbackInsight := by
  refine ⟨rfl, by simp [fallbackInsight]⟩

/-- C3 (amended): `getAIInsights` never raises; it returns the one fixed
fallback Insight (severity "low", static title/content/recommendation,
independent of the input status) exactly on transport failure or on a
response whose text fails to parse as JSON; a successfully parsed JSON
response is returned unvalidated, even when Insight fields are missing. -/
theorem insight_fallback_amended (status : HTAPStatus) (text : Option String)
    (msg : String) :
    getAIInsights (fun _ => .throwErr msg) status = fallbackInsight ∧
    (∀ e, parseJson (jsOrElse text "\x7b\x7d") = .error e →
      getAIInsights (fun _ => .success text) status = fallbackInsight) ∧
    (∀ v, parseJson (jsOrElse text "\x7b\x7d") = .ok v →
      getAIInsights (fun _ => .success text) status = v) ∧
    getProp fallbackInsight "severity" = .ok (.str "low") ∧
    getProp fallbackInsight "title" = .ok (.str "Monitoring Active") := by
  refine ⟨rfl, fun e he => ?_, fun v hv => ?_, rfl, rfl⟩
  · simp only [getAIInsights, he]
  · simp only [getAIInsights, hv]

/-- Witness for C3 (amended): concrete transport throw and concrete
non-JSON response text both yield the fallback. -/
theorem insight_fallback_amended_witness :
    getAIInsights (fun _ => .throwErr "network unreachable") ⟨1450, 2, 12, 1250, 15⟩ =
      fallbackInsight ∧
    getAIInsights (fun _ => .success (some "not json")) ⟨1450, 2, 12, 1250, 15⟩ =
      fallbackInsight :=
  ⟨(insight_fallback_amended ⟨1450, 2, 12, 1250, 15⟩ (some "not json")
      "network unreachable").1,
   (insight_fallback_amended ⟨1450, 2, 12, 1250, 15⟩ (some "not json")
      "network unreachable").2.1 _ rfl⟩

/-! ## C6 -/

/-- Counterexample for C6: an error response whose `message` field is
present but empty. The claim requires `error` to equal the server-provided
message field whenever it is present, i.e. `some ""`; the code evaluates
`errData.message || "Query execution failed"`, the empty string is falsy,
and the result carries "Query execution failed" instead. -/
theorem live_error_message_counterexample :
    (([("message", JVal.str "")] : List (String × JVal)).lookup "message" =
      some (JVal.str "")) ∧
    executeLiveQuery ⟨"https://gateway.example", "pk", "sk", true, none, none, none⟩
        "SELECT 1" (.response false (.ok (.obj [("message", .str "")]))) 3 =
      .ok (liveFailResult "SELECT 1" "Query execution failed") ∧
    (liveFailResult "SELECT 1" "Query execution failed").error ≠ some "" := by
  refine ⟨rfl, rfl, by decide⟩

/-- C6 (amended): with non-empty credentials no exception escapes: every
outcome yields a returned QueryResult. On every failure the result is
`liveFailResult` (empty columns/rows, time 0, TiKV, isMPP false) whose
`error` is: the thrown message on network failure; the parse error message
when `response.json()` fails; on a non-2xx response with parsed body, the
server message field when it is present and truthy, else
"Query execution failed"; and the property-access error message when the
success-path extraction of `result.columns`/`result.rows` throws. -/
theorem live_failure_path_amended (config : TiDBConfig) (sql : String) (elapsed : ℚ)
    (hcred : ¬(config.endpoint = "" ∨ config.publicKey = "" ∨ config.privateKey = "")) :
    (∀ outcome, ∃ r, executeLiveQuery config sql outcome elapsed = .ok r) ∧
    (∀ msg, executeLiveQuery config sql (.throwErr msg) elapsed =
      .ok (liveFailResult sql msg)) ∧
    (∀ ok parseMsg,
      executeLiveQuery config sql (.response ok (.error parseMsg)) elapsed =
        .ok (liveFailResult sql parseMsg)) ∧
    (∀ errData msgV, getProp errData "message" = .ok msgV → jsTruthy msgV = true →
      executeLiveQuery config sql (.response false (.ok errData)) elapsed =
        .ok (liveFailResult sql (jsToString msgV))) ∧
    (∀ errData msgV, getProp errData "message" = .ok msgV → jsTruthy msgV = false →
      executeLiveQuery config sql (.response false (.ok errData)) elapsed =
        .ok (liveFailResult sql "Query execution failed")) ∧
    (∀ data m, liveExtract data = .error m →
      executeLiveQuery config sql (.response true (.ok data)) elapsed =
        .ok (liveFailResult sql m)) := by
  refine ⟨fun outcome => ?_, fun msg => ?_, fun ok parseMsg => ?_,
    fun errData msgV hm ht => ?_, fun errData msgV hm ht => ?_,
    fun data m hx => ?_⟩
  · cases h : liveTryBody sql outcome elapsed with
    | ok r => exact ⟨r, by simp [executeLiveQuery, hcred, h]⟩
    | error m => exact ⟨liveFailResult sql m, by simp [executeLiveQuery, hcred, h]⟩
  · simp [executeLiveQuery, hcred, liveTryBody]
  · cases ok <;> simp [executeLiveQuery, hcred, liveTryBody]
  · simp [executeLiveQuery, hcred, liveTryBody, liveHttpErrorMsg, hm, ht]
  · simp [executeLiveQuery, hcred, liveTryBody, liveHttpErrorMsg, hm, ht]
  · simp [executeLiveQuery, hcred, liveTryBody, hx]

/-- Witness for C6 (amended): a concrete transport throw with concrete
non-empty credentials. -/
theorem live_failure_path_amended_witness :
    executeLiveQuery ⟨"https://gateway.example", "pk", "sk", true, none, none, none⟩
        "SELECT 1" (.throwErr "connection refused") 9 =
      .ok (liveFailResult "SELECT 1" "connection refused") :=
  (live_failure_path_amended
    ⟨"https://gateway.example", "pk", "sk", true, none, none, none⟩
    "SELECT 1" 9 (by simp)).2.1 "connection refused"

end HTAP
